import Mathlib

/-!
Verification of `src/function.py` (Python-ArcGIS-Integration): a shallow
embedding of `create_single_map` and `create_standard_layout` over an explicit
model of the ArcGIS (`arcpy`) host object graph, together with proofs of the
specification's claims about them.

The host application's behaviour (which layers a new map starts with, which
layer object a data path yields, which colour ramps and style items exist,
which categorical groups a unique-value renderer computes for a field, the
CIM definitions handed back by `getDefinition`) is a parameter `HostEnv`;
the Python code's own control flow, mutations and defaults are embedded
line by line.
-/

/-- A unique-value renderer item (`sym.renderer.groups[i].items[j]`):
`values` is the nested value list the code reads as `item.values[0][0]`,
`label` the display label the code assigns. -/
structure UVItem where
  values : List (List Int)
  label : String
deriving DecidableEq, Repr

/-- A categorical group of a unique-value renderer (`sym.renderer.groups[i]`). -/
structure UVGroup where
  heading : String
  items : List UVItem
deriving DecidableEq, Repr

/-- The renderer state carried by a layer's symbology.  `rtype` is the
renderer kind string, the remaining fields are the attributes the code
assigns on one branch or the other; `reclassified` records whether
`reclassify()` has been invoked on it. -/
structure Renderer where
  rtype : String
  colorRamp : String
  fields : List String
  groups : List UVGroup
  classificationField : String
  classificationMethod : String
  breakCount : Int
  reclassified : Bool
deriving DecidableEq, Repr

/-- A symbology object (`layer.symbology` yields a copy; assigning
`layer.symbology = sym` writes it back, per the arcpy contract the code
follows at lines 58 and 85). -/
structure Symbology where
  renderer : Renderer
deriving DecidableEq, Repr

/-- A map layer. -/
structure Layer where
  name : String
  isBasemapLayer : Bool
  symbology : Symbology
deriving DecidableEq, Repr

/-- A map: a name and its current layer list. -/
structure GISMap where
  name : String
  layers : List Layer
deriving DecidableEq, Repr

/-- A Python-level error raised by the embedded code. -/
inductive PyErr where
  | valueError (msg : String)
  | attributeError (msg : String)
  | indexError (msg : String)
deriving DecidableEq, Repr

/-- `graphicFrame` of a CIM element; `borderSymbol = none` models Python
`None`. -/
structure GraphicFrame where
  borderSymbol : Option String
deriving DecidableEq, Repr

/-- One element of a layout's CIM definition; `typeName` models
`type(elm).__name__`. -/
structure CIMElement where
  typeName : String
  graphicFrame : GraphicFrame
deriving DecidableEq, Repr

/-- A layout CIM definition (`layout.getDefinition("V3")`). -/
structure LayoutCIM where
  elements : List CIMElement
deriving DecidableEq, Repr

/-- One item of a legend's CIM definition. -/
structure LegendItem where
  itemName : String
  showLayerName : Bool
  showHeading : Bool
deriving DecidableEq, Repr

/-- A legend CIM definition (`legend.getDefinition("V3")`). -/
structure LegendCIM where
  items : List LegendItem
deriving DecidableEq, Repr

/-- A page-coordinate extent (`arcpy.Extent`), in layout units. -/
structure Extent where
  xmin : Rat
  ymin : Rat
  xmax : Rat
  ymax : Rat
deriving DecidableEq, Repr

/-- The ArcGIS host environment: everything the code obtains from the
`aprx` project object or from live host objects, modelled as data.
The embedding is parametric in it. -/
structure HostEnv where
  /-- layers a freshly created map starts with (default basemap layers). -/
  defaultMapLayers : List Layer
  /-- the layer object `m.addDataFromPath(path)` produces for a path. -/
  dataLayer : String → Layer
  /-- `aprx.listColorRamps(name)`. -/
  colorRamps : String → List String
  /-- the fresh renderer `sym.updateRenderer(kind)` installs. -/
  freshRenderer : String → Renderer
  /-- the categorical groups the host computes when `sym.renderer.fields`
  is assigned. -/
  groupsFor : List String → List UVGroup
  /-- `layout.getDefinition("V3")` as read at line 144, after the map
  frame has been created. -/
  lytCIM : LayoutCIM
  /-- `legend.getDefinition("V3")` as read at line 179. -/
  legendCIM : LegendCIM
  /-- `aprx.listStyleItems(gallery, cls, name)`. -/
  styleItems : String → String → String → List String
  /-- `mf.getLayerExtent(layer)`. -/
  layerExtent : Layer → Extent

/-- The key the sort and the relabelling read from an item:
`item.values[0][0]` (line 69 and line 72). Total with default `0`;
`hasKey` below guards every use, mirroring Python's `IndexError`. -/
def itemKey (it : UVItem) : Int :=
  match it.values with
  | (v :: _) :: _ => v
  | _ => 0

/-- Whether `item.values[0][0]` exists, i.e. the accesses at lines 69 and
72 do not raise `IndexError`. -/
def hasKey (it : UVItem) : Bool :=
  match it.values with
  | (_ :: _) :: _ => true
  | _ => false

/-- Line 69: `items.sort(key=lambda g: g.values[0][0])` — a stable
ascending sort on the item key (Python `list.sort` is a stable ascending
sort; insertion sort realises the same specification). -/
def sortItems (items : List UVItem) : List UVItem :=
  items.insertionSort (fun a b => itemKey a ≤ itemKey b)

instance : IsTotal UVItem (fun a b => itemKey a ≤ itemKey b) :=
  ⟨fun a b => le_total (itemKey a) (itemKey b)⟩

instance : IsTrans UVItem (fun a b => itemKey a ≤ itemKey b) :=
  ⟨fun _ _ _ hab hbc => le_trans hab hbc⟩

/-- Lines 72-73 for one item: `item.label = label_map.get(val, str(val))`
with `val = int(item.values[0][0])`. -/
def relabel (lm : List (Int × String)) (it : UVItem) : UVItem :=
  { it with label := ((lm.lookup (itemKey it)).getD (toString (itemKey it))) }

/-- Lines 53-56: remove every basemap layer of the map.  `m.listLayers()`
returns a fresh snapshot, so the loop removes every basemap layer. -/
def removeBasemaps (m : GISMap) : GISMap :=
  { m with layers := m.layers.filter (fun l => !l.isBasemapLayer) }

/-- Lines 49-56 of `create_single_map`: the map as it stands when the
symbology work begins — created with `map_name`, the data layer added and
renamed to `layer_name`, basemap layers removed. -/
def mapAtBranch (env : HostEnv) (map_name layer_path layer_name : String) : GISMap :=
  removeBasemaps
    { name := map_name
      layers := env.defaultMapLayers ++ [{ env.dataLayer layer_path with name := layer_name }] }

/-- Lines 58-62: `sym = layer.symbology; sym.updateRenderer(renderer)`
followed by `sym.renderer.colorRamp = ramp`.  `updateRenderer` installs a
fresh host renderer of the requested kind. -/
def symAtBranch (env : HostEnv) (renderer ramp : String) : Symbology :=
  { renderer := { env.freshRenderer renderer with rtype := renderer, colorRamp := ramp } }

/-- Lines 66-73: the unique-value branch acting on the symbology copy.
Setting `sym.renderer.fields` makes the host recompute the groups; then
`groups[0].items` is sorted in place and each item relabelled via
`label_map.get(val, str(val))`.  A missing `values[0][0]` raises
`IndexError` (from the sort key); `label_map is None` raises
`AttributeError` on the first loop iteration. -/
def applyUniqueValues (env : HostEnv) (variable_name : String)
    (label_map : Option (List (Int × String))) (sym : Symbology) :
    Except PyErr Symbology :=
  match env.groupsFor [variable_name], label_map with
  | [], _ => .error (.indexError "list index out of range")
  | g0 :: rest, none =>
    if g0.items.all hasKey then
      if (sortItems g0.items).isEmpty then
        .ok { renderer :=
                { sym.renderer with
                    fields := [variable_name],
                    groups := { g0 with items := sortItems g0.items } :: rest } }
      else .error (.attributeError "\x27NoneType\x27 object has no attribute \x27get\x27")
    else .error (.indexError "list index out of range")
  | g0 :: rest, some lm =>
    if g0.items.all hasKey then
      .ok { renderer :=
              { sym.renderer with
                  fields := [variable_name],
                  groups := { g0 with items := (sortItems g0.items).map (relabel lm) } :: rest } }
    else .error (.indexError "list index out of range")

/-- Lines 77-80: the graduated-colors branch acting on the symbology copy. -/
def applyGraduated (variable_name classification_method : String) (break_count : Int)
    (sym : Symbology) : Symbology :=
  { renderer := { sym.renderer with
                    classificationField := variable_name
                    classificationMethod := classification_method
                    breakCount := break_count
                    reclassified := true } }

/-- Line 85 plus the return: write the symbology copy back to the layer
object and reflect that write in the map that holds the layer. -/
def writeBack (m : GISMap) (layer1 : Layer) (sym : Symbology) : GISMap × Layer :=
  let layer2 := { layer1 with symbology := sym }
  ({ m with layers := m.layers.map (fun l => if l = layer1 then layer2 else l) }, layer2)

/-- `create_single_map` (lines 6-86).  On an exception the error carries
the map as already mutated on the host: Python has created the map, added
and renamed the layer and removed the basemaps before any raise. -/
def create_single_map (env : HostEnv)
    (map_name layer_path layer_name renderer variable_name color_map : String)
    (label_map : Option (List (Int × String)) := none)
    (classification_method : String := "NaturalBreaks")
    (break_count : Int := 5) :
    Except (PyErr × GISMap) (GISMap × Layer) :=
  match env.colorRamps color_map with
  | [] =>
    .error (.indexError "list index out of range", mapAtBranch env map_name layer_path layer_name)
  | ramp :: _ =>
    if renderer = "UniqueValueRenderer" then
      match applyUniqueValues env variable_name label_map (symAtBranch env renderer ramp) with
      | .error e => .error (e, mapAtBranch env map_name layer_path layer_name)
      | .ok sym4 =>
        .ok (writeBack (mapAtBranch env map_name layer_path layer_name)
              { env.dataLayer layer_path with name := layer_name } sym4)
    else if renderer = "GraduatedColorsRenderer" then
      .ok (writeBack (mapAtBranch env map_name layer_path layer_name)
            { env.dataLayer layer_path with name := layer_name }
            (applyGraduated variable_name classification_method break_count
              (symAtBranch env renderer ramp)))
    else
      .error (.valueError ("Unsupported renderer: " ++ renderer),
              mapAtBranch env map_name layer_path layer_name)

/-- Line 146-147 for one element: clear `graphicFrame.borderSymbol` on
every `CIMMapFrame` element, leave others untouched. -/
def stripBorder (e : CIMElement) : CIMElement :=
  if e.typeName = "CIMMapFrame" then
    { e with graphicFrame := { e.graphicFrame with borderSymbol := none } }
  else e

/-- Lines 181-182 for one legend item. -/
def suppressItem (it : LegendItem) : LegendItem :=
  { it with showLayerName := false, showHeading := false }

/-- The map frame placed on the layout (lines 141 and 151). -/
structure MapFrame where
  pageExtent : Extent
  frameMap : GISMap
  cameraExtent : Extent
deriving DecidableEq, Repr

/-- The title text element (lines 154-165). -/
structure TextElement where
  text : String
  position : Rat × Rat
  fontSize : Rat
  style : String
  anchor : String
  fontFamilyName : String
deriving DecidableEq, Repr

/-- The legend surround element (lines 168-183). -/
structure LegendElement where
  position : Rat × Rat
  style : String
  elementWidth : Rat
  elementHeight : Rat
  cim : LegendCIM
deriving DecidableEq, Repr

/-- A plain surround element (scale bar, north arrow). -/
structure SurroundElement where
  position : Rat × Rat
  kind : String
  style : String
deriving DecidableEq, Repr

/-- The layout built by `create_standard_layout`, with its CIM definition
as last written back by `setDefinition` and every element the function
placed on it. -/
structure Layout where
  name : String
  width : Rat
  height : Rat
  units : String
  cim : LayoutCIM
  mapFrame : MapFrame
  title : TextElement
  legend : LegendElement
  scaleBar : SurroundElement
  northArrow : SurroundElement
deriving DecidableEq, Repr

/-- `create_standard_layout` (lines 91-213): an 8.27 × 5.83 inch layout
with map frame (border stripped through the CIM), title, legend (item
layer names and headings suppressed through the CIM), scale bar and north
arrow.  Each `listStyleItems(...)[0]` raises `IndexError` when the style
is missing. -/
def create_standard_layout (env : HostEnv) (map_obj : GISMap) (layer : Layer)
    (layout_name title_text : String)
    (mapframe_extent : Option Extent := none)
    (title_position : Rat × Rat := (4.1215, 5.539))
    (legend_position : Rat × Rat := (0.1464, 2.2927))
    (legend_size : Rat × Rat := (1.2357, 1.7131))
    (scalebar_position : Rat × Rat := (2.7713, 0.2371))
    (north_arrow_position : Rat × Rat := (7.2704, 4.8844)) :
    Except PyErr Layout :=
  let ext := mapframe_extent.getD { xmin := 0.885, ymin := 0.665, xmax := 7.385, ymax := 5.165 }
  let cim1 : LayoutCIM := { elements := env.lytCIM.elements.map stripBorder }
  let mf : MapFrame :=
    { pageExtent := ext, frameMap := map_obj, cameraExtent := env.layerExtent layer }
  match env.styleItems "ArcGIS 2D" "TEXT" "Title (Serif)" with
  | [] => .error (.indexError "list index out of range")
  | txt_style :: _ =>
    let title : TextElement :=
      { text := title_text, position := title_position, fontSize := 20
        style := txt_style, anchor := "Center_Point", fontFamilyName := "Garamond" }
    match env.styleItems "ArcGIS 2D" "LEGEND" "Legend 1" with
    | [] => .error (.indexError "list index out of range")
    | legend_style :: _ =>
      let legend : LegendElement :=
        { position := legend_position, style := legend_style
          elementWidth := legend_size.1, elementHeight := legend_size.2
          cim := { items := env.legendCIM.items.map suppressItem } }
      match env.styleItems "ArcGIS 2D" "SCALE_BAR" "Scale Line 1 Metric" with
      | [] => .error (.indexError "list index out of range")
      | sb_style :: _ =>
        match env.styleItems "ArcGIS 2D" "NORTH_ARROW" "ArcGIS North 1" with
        | [] => .error (.indexError "list index out of range")
        | na_style :: _ =>
          .ok { name := layout_name, width := 8.27, height := 5.83, units := "INCH"
                cim := cim1, mapFrame := mf, title := title, legend := legend
                scaleBar := { position := scalebar_position, kind := "SCALE_BAR", style := sb_style }
                northArrow := { position := north_arrow_position, kind := "NORTH_ARROW", style := na_style } }

/-- A blank renderer, used by the concrete test environments below. -/
def baseRenderer : Renderer :=
  { rtype := "", colorRamp := "", fields := [], groups := []
    classificationField := "", classificationMethod := "", breakCount := 0
    reclassified := false }

/-- A blank symbology. -/
def baseSym : Symbology := { renderer := baseRenderer }

/-- Concrete unique-value items used by the test environments: values 3, 1, 2
arrive out of order, with placeholder labels. -/
def sampleItems : List UVItem :=
  [{ values := [[3]], label := "x" }, { values := [[1]], label := "y" },
   { values := [[2]], label := "z" }]

/-- A concrete host environment: one default basemap layer, a non-basemap
data layer for every path, one colour ramp, one categorical group with
`sampleItems`, a layout CIM with a `CIMMapFrame` and a text element, a
two-item legend CIM, and every style lookup succeeding. -/
def sampleEnv : HostEnv :=
  { defaultMapLayers :=
      [{ name := "World Topographic Map", isBasemapLayer := true, symbology := baseSym }]
    dataLayer := fun _ => { name := "raw", isBasemapLayer := false, symbology := baseSym }
    colorRamps := fun _ => ["Viridis"]
    freshRenderer := fun rt => { baseRenderer with rtype := rt }
    groupsFor := fun _ => [{ heading := "VALUE", items := sampleItems }]
    lytCIM :=
      { elements :=
          [{ typeName := "CIMMapFrame", graphicFrame := { borderSymbol := some "solid" } },
           { typeName := "CIMGraphicElement", graphicFrame := { borderSymbol := some "thin" } }] }
    legendCIM :=
      { items :=
          [{ itemName := "layer1", showLayerName := true, showHeading := true },
           { itemName := "layer2", showLayerName := true, showHeading := false }] }
    styleItems := fun _ _ n => [n ++ " style"]
    layerExtent := fun _ => { xmin := 0, ymin := 0, xmax := 10, ymax := 10 } }

/-- A host environment whose unique-value renderer has two categorical
groups; the second group's items are out of order and carry stale labels. -/
def twoGroupEnv : HostEnv :=
  { sampleEnv with
      groupsFor := fun _ =>
        [{ heading := "g1"
           items := [{ values := [[3]], label := "x" }, { values := [[1]], label := "y" }] },
         { heading := "g2"
           items := [{ values := [[2]], label := "b" }, { values := [[1]], label := "a" }] }] }

/-- A concrete label mapping covering values 1 and 2 but not 3. -/
def sampleLabelMap : List (Int × String) := [(1, "one"), (2, "two")]

/-- The layer produced by running `create_single_map` on `sampleEnv` with
renderer `UniqueValueRenderer`, field `VALUE`, ramp `Viridis` and
`sampleLabelMap`: items sorted ascending and relabelled (`3` falls back to
its decimal string). -/
def sampleUVLayer : Layer :=
  { name := "Tracts", isBasemapLayer := false
    symbology :=
      { renderer :=
          { rtype := "UniqueValueRenderer", colorRamp := "Viridis", fields := ["VALUE"]
            groups :=
              [{ heading := "VALUE"
                 items := [{ values := [[1]], label := "one" },
                           { values := [[2]], label := "two" },
                           { values := [[3]], label := "3" }] }]
            classificationField := "", classificationMethod := "", breakCount := 0
            reclassified := false } } }

/-- The map produced by the same run: the basemap layer is gone and the
styled data layer is the only layer. -/
def sampleUVMap : GISMap := { name := "Map1", layers := [sampleUVLayer] }

/-- The layer produced by the same run over `twoGroupEnv`: the first group
is sorted and relabelled, the second group is untouched. -/
def twoGroupLayer : Layer :=
  { name := "Tracts", isBasemapLayer := false
    symbology :=
      { renderer :=
          { rtype := "UniqueValueRenderer", colorRamp := "Viridis", fields := ["VALUE"]
            groups :=
              [{ heading := "g1"
                 items := [{ values := [[1]], label := "one" },
                           { values := [[3]], label := "3" }] },
               { heading := "g2"
                 items := [{ values := [[2]], label := "b" },
                           { values := [[1]], label := "a" }] }]
            classificationField := "", classificationMethod := "", breakCount := 0
            reclassified := false } } }

/-- The map of the `twoGroupEnv` run. -/
def twoGroupMap : GISMap := { name := "Map1", layers := [twoGroupLayer] }

/-- The layout produced by `create_standard_layout` on `sampleEnv` with all
optional parameters omitted: map-frame border stripped in the CIM, legend
items suppressed, every element at its documented default position. -/
def sampleLayout : Layout :=
  { name := "Layout1", width := 8.27, height := 5.83, units := "INCH"
    cim :=
      { elements :=
          [{ typeName := "CIMMapFrame", graphicFrame := { borderSymbol := none } },
           { typeName := "CIMGraphicElement", graphicFrame := { borderSymbol := some "thin" } }] }
    mapFrame :=
      { pageExtent := { xmin := 0.885, ymin := 0.665, xmax := 7.385, ymax := 5.165 }
        frameMap := sampleUVMap
        cameraExtent := { xmin := 0, ymin := 0, xmax := 10, ymax := 10 } }
    title :=
      { text := "Population by Tract", position := (4.1215, 5.539), fontSize := 20
        style := "Title (Serif) style", anchor := "Center_Point", fontFamilyName := "Garamond" }
    legend :=
      { position := (0.1464, 2.2927), style := "Legend 1 style"
        elementWidth := 1.2357, elementHeight := 1.7131
        cim :=
          { items := [{ itemName := "layer1", showLayerName := false, showHeading := false },
                      { itemName := "layer2", showLayerName := false, showHeading := false }] } }
    scaleBar := { position := (2.7713, 0.2371), kind := "SCALE_BAR", style := "Scale Line 1 Metric style" }
    northArrow := { position := (7.2704, 4.8844), kind := "NORTH_ARROW", style := "ArcGIS North 1 style" } }

/-! ## General lemmas about the embedded operations -/

theorem itemKey_relabel (lm : List (Int × String)) (it : UVItem) :
    itemKey (relabel lm it) = itemKey it := rfl

theorem sortItems_perm (l : List UVItem) : (sortItems l).Perm l :=
  List.perm_insertionSort _ l

theorem sortItems_pairwise (l : List UVItem) :
    (sortItems l).Pairwise (fun a b => itemKey a ≤ itemKey b) :=
  List.sorted_insertionSort _ l

theorem sortItems_eq_nil_iff (l : List UVItem) : sortItems l = [] ↔ l = [] := by
  constructor
  · intro h
    have hlen := (sortItems_perm l).length_eq
    rw [h] at hlen
    exact List.length_eq_zero.mp hlen.symm
  · intro h
    subst h
    simp [sortItems]

/-- Success shape of the unique-value branch with a present label mapping. -/
theorem applyUniqueValues_ok_some (env : HostEnv) (vn : String)
    (lm : List (Int × String)) (sym sym4 : Symbology)
    (h : applyUniqueValues env vn (some lm) sym = .ok sym4) :
    ∃ g0 rest, env.groupsFor [vn] = g0 :: rest ∧ g0.items.all hasKey = true ∧
      sym4 = { renderer :=
        { sym.renderer with
            fields := [vn]
            groups := { g0 with items := (sortItems g0.items).map (relabel lm) } :: rest } } := by
  rw [applyUniqueValues.eq_def] at h
  rcases hgr : env.groupsFor [vn] with _ | ⟨g0, rest⟩ <;> rw [hgr] at h
  · simp at h
  · simp only at h
    split at h
    case isTrue hk =>
      simp only [Except.ok.injEq] at h
      exact ⟨g0, rest, rfl, hk, h.symm⟩
    case isFalse hk =>
      simp at h

/-- Success of the unique-value branch leaves every group after the first
unchanged (for any label mapping, present or absent). -/
theorem applyUniqueValues_ok_tail (env : HostEnv) (vn : String)
    (label_map : Option (List (Int × String))) (sym sym4 : Symbology)
    (h : applyUniqueValues env vn label_map sym = .ok sym4) :
    sym4.renderer.groups.drop 1 = (env.groupsFor [vn]).drop 1 := by
  rw [applyUniqueValues.eq_def] at h
  rcases hgr : env.groupsFor [vn] with _ | ⟨g0, rest⟩ <;> rw [hgr] at h
  · simp at h
  · rcases label_map with _ | lm
    · simp only at h
      split at h
      case isTrue hk =>
        split at h
        · simp only [Except.ok.injEq] at h
          subst h
          simp
        · simp at h
      case isFalse hk =>
        simp at h
    · simp only at h
      split at h
      case isTrue hk =>
        simp only [Except.ok.injEq] at h
        subst h
        simp
      case isFalse hk =>
        simp at h

theorem mapAtBranch_name (env : HostEnv) (mn lp ln : String) :
    (mapAtBranch env mn lp ln).name = mn := rfl

theorem mapAtBranch_no_basemap (env : HostEnv) (mn lp ln : String) :
    ∀ l ∈ (mapAtBranch env mn lp ln).layers, l.isBasemapLayer = false := by
  intro l hl
  simp only [mapAtBranch, removeBasemaps, List.mem_filter, Bool.not_eq_true'] at hl
  exact hl.2

theorem mapAtBranch_mem_layer (env : HostEnv) (mn lp ln : String)
    (hdl : (env.dataLayer lp).isBasemapLayer = false) :
    { env.dataLayer lp with name := ln } ∈ (mapAtBranch env mn lp ln).layers := by
  simp [mapAtBranch, removeBasemaps, List.mem_filter, hdl]

/-- The unsupported-renderer path of `create_single_map`: any renderer other
than the two literals reaches line 83 and raises `ValueError`, provided the
colour-ramp lookup at line 61 succeeded. -/
theorem create_single_map_unsupported (env : HostEnv)
    (map_name layer_path layer_name renderer variable_name color_map : String)
    (label_map : Option (List (Int × String)))
    (classification_method : String) (break_count : Int)
    (h1 : renderer ≠ "UniqueValueRenderer") (h2 : renderer ≠ "GraduatedColorsRenderer")
    (h3 : env.colorRamps color_map ≠ []) :
    create_single_map env map_name layer_path layer_name renderer variable_name color_map
        label_map classification_method break_count =
      .error (.valueError ("Unsupported renderer: " ++ renderer),
              mapAtBranch env map_name layer_path layer_name) := by
  rw [create_single_map.eq_def]
  rcases hcr : env.colorRamps color_map with _ | ⟨ramp, rs⟩
  · exact absurd hcr h3
  · simp only
    rw [if_neg h1, if_neg h2]

/-- The `label_map is None` path of the unique-value branch: with at least
one well-formed item in the first group, the first loop iteration calls
`.get` on `None` and raises `AttributeError`. -/
theorem applyUniqueValues_none_error (env : HostEnv) (vn : String) (sym : Symbology)
    (g0 : UVGroup) (rest : List UVGroup)
    (hgr : env.groupsFor [vn] = g0 :: rest)
    (hne : g0.items ≠ []) (hkeys : g0.items.all hasKey = true) :
    applyUniqueValues env vn none sym =
      .error (.attributeError "\x27NoneType\x27 object has no attribute \x27get\x27") := by
  rw [applyUniqueValues.eq_def, hgr]
  simp only
  rw [if_pos hkeys, if_neg ?hne]
  case hne =>
    intro hI
    exact hne ((sortItems_eq_nil_iff g0.items).mp (by simpa using hI))

/-! ## The claims -/

/-- C1: for every renderer string other than the two supported literals
`UniqueValueRenderer` and `GraduatedColorsRenderer`, `create_single_map`
fails with a `ValueError` whose message names the offending renderer value
(hypothesis: the colour-ramp lookup at line 61, which runs first, found at
least one ramp). -/
theorem unsupported_renderer_configuration_error (env : HostEnv)
    (map_name layer_path layer_name renderer variable_name color_map : String)
    (label_map : Option (List (Int × String)))
    (classification_method : String) (break_count : Int)
    (h1 : renderer ≠ "UniqueValueRenderer") (h2 : renderer ≠ "GraduatedColorsRenderer")
    (h3 : env.colorRamps color_map ≠ []) :
    create_single_map env map_name layer_path layer_name renderer variable_name color_map
        label_map classification_method break_count =
      .error (.valueError ("Unsupported renderer: " ++ renderer),
              mapAtBranch env map_name layer_path layer_name) :=
  create_single_map_unsupported env map_name layer_path layer_name renderer variable_name
    color_map label_map classification_method break_count h1 h2 h3

/-- Witness for C1 at a concrete input: renderer `"HeatMapRenderer"`. -/
theorem unsupported_renderer_configuration_error_witness :
    create_single_map sampleEnv "Map1" "roads.shp" "Roads" "HeatMapRenderer" "TYPE" "Viridis"
        (some sampleLabelMap) "NaturalBreaks" 5 =
      .error (.valueError ("Unsupported renderer: " ++ "HeatMapRenderer"),
              mapAtBranch sampleEnv "Map1" "roads.shp" "Roads") :=
  unsupported_renderer_configuration_error sampleEnv "Map1" "roads.shp" "Roads"
    "HeatMapRenderer" "TYPE" "Viridis" (some sampleLabelMap) "NaturalBreaks" 5
    (by decide) (by decide) (by intro h; exact absurd h (by simp [sampleEnv]))

/-- C4: when the optional parameters are omitted, both functions behave
exactly as when called with the documented literal defaults:
classification method `"NaturalBreaks"`, break count `5`, title position
`(4.1215, 5.539)`, legend position `(0.1464, 2.2927)`, legend size
`(1.2357, 1.7131)`, scale-bar position `(2.7713, 0.2371)`, north-arrow
position `(7.2704, 4.8844)` (and no label mapping, no explicit map-frame
extent). -/
theorem documented_literal_defaults (env : HostEnv)
    (map_name layer_path layer_name renderer variable_name color_map : String)
    (map_obj : GISMap) (layer : Layer) (layout_name title_text : String) :
    create_single_map env map_name layer_path layer_name renderer variable_name color_map =
      create_single_map env map_name layer_path layer_name renderer variable_name color_map
        none "NaturalBreaks" 5
    ∧ create_standard_layout env map_obj layer layout_name title_text =
      create_standard_layout env map_obj layer layout_name title_text none
        (4.1215, 5.539) (0.1464, 2.2927) (1.2357, 1.7131) (2.7713, 0.2371) (7.2704, 4.8844) :=
  ⟨rfl, rfl⟩

/-- C8: with the label mapping left at its default `None` and renderer
`UniqueValueRenderer`, a nonempty first categorical group makes
`create_single_map` raise `AttributeError` (`None` has no attribute `get`)
instead of falling back to decimal-string labels (hypotheses: the ramp
lookup succeeds and the items carry a first value, so no earlier
`IndexError` fires). -/
theorem none_label_map_attribute_error (env : HostEnv)
    (map_name layer_path layer_name variable_name color_map : String)
    (classification_method : String) (break_count : Int)
    (g0 : UVGroup) (rest : List UVGroup)
    (h3 : env.colorRamps color_map ≠ [])
    (hgr : env.groupsFor [variable_name] = g0 :: rest)
    (hne : g0.items ≠ []) (hkeys : g0.items.all hasKey = true) :
    create_single_map env map_name layer_path layer_name "UniqueValueRenderer" variable_name
        color_map none classification_method break_count =
      .error (.attributeError "\x27NoneType\x27 object has no attribute \x27get\x27",
              mapAtBranch env map_name layer_path layer_name) := by
  rw [create_single_map.eq_def]
  rcases hcr : env.colorRamps color_map with _ | ⟨ramp, rs⟩
  · exact absurd hcr h3
  · simp only
    rw [if_pos trivial,
        applyUniqueValues_none_error env variable_name
          (symAtBranch env "UniqueValueRenderer" ramp) g0 rest hgr hne hkeys]

/-- Witness for C8: the concrete environment has one group with three
well-formed items, and the call without a label mapping raises
`AttributeError`. -/
theorem none_label_map_attribute_error_witness :
    create_single_map sampleEnv "Map1" "tracts.shp" "Tracts" "UniqueValueRenderer" "VALUE"
        "Viridis" none "NaturalBreaks" 5 =
      .error (.attributeError "\x27NoneType\x27 object has no attribute \x27get\x27",
              mapAtBranch sampleEnv "Map1" "tracts.shp" "Tracts") :=
  none_label_map_attribute_error sampleEnv "Map1" "tracts.shp" "Tracts" "VALUE" "Viridis"
    "NaturalBreaks" 5 { heading := "VALUE", items := sampleItems } []
    (by intro h; exact absurd h (by simp [sampleEnv])) rfl (by decide) (by decide)

/-- C9: the unsupported-renderer error is not raised atomically: when
`create_single_map` fails with the configuration `ValueError`, the map has
already been created under `map_name`, the data layer already added and
renamed to `layer_name`, every basemap layer already removed, and the
renderer string and first colour ramp already applied to the symbology
object built at lines 58-62. -/
theorem error_path_host_mutation (env : HostEnv)
    (map_name layer_path layer_name renderer variable_name color_map : String)
    (label_map : Option (List (Int × String)))
    (classification_method : String) (break_count : Int) (ramp : String) (rs : List String)
    (h1 : renderer ≠ "UniqueValueRenderer") (h2 : renderer ≠ "GraduatedColorsRenderer")
    (hcr : env.colorRamps color_map = ramp :: rs)
    (hdl : (env.dataLayer layer_path).isBasemapLayer = false) :
    create_single_map env map_name layer_path layer_name renderer variable_name color_map
        label_map classification_method break_count =
      .error (.valueError ("Unsupported renderer: " ++ renderer),
              mapAtBranch env map_name layer_path layer_name)
    ∧ (mapAtBranch env map_name layer_path layer_name).name = map_name
    ∧ { env.dataLayer layer_path with name := layer_name }
        ∈ (mapAtBranch env map_name layer_path layer_name).layers
    ∧ (∀ l ∈ (mapAtBranch env map_name layer_path layer_name).layers,
        l.isBasemapLayer = false)
    ∧ (symAtBranch env renderer ramp).renderer.rtype = renderer
    ∧ (symAtBranch env renderer ramp).renderer.colorRamp = ramp :=
  ⟨create_single_map_unsupported env map_name layer_path layer_name renderer variable_name
      color_map label_map classification_method break_count h1 h2
      (by rw [hcr]; exact List.cons_ne_nil ramp rs),
   mapAtBranch_name env map_name layer_path layer_name,
   mapAtBranch_mem_layer env map_name layer_path layer_name hdl,
   mapAtBranch_no_basemap env map_name layer_path layer_name,
   rfl, rfl⟩

/-- Witness for C9 at a concrete input: renderer `"SimpleRenderer"`. -/
theorem error_path_host_mutation_witness :
    create_single_map sampleEnv "Map1" "roads.shp" "Roads" "SimpleRenderer" "TYPE" "Viridis"
        none "NaturalBreaks" 5 =
      .error (.valueError ("Unsupported renderer: " ++ "SimpleRenderer"),
              mapAtBranch sampleEnv "Map1" "roads.shp" "Roads")
    ∧ (mapAtBranch sampleEnv "Map1" "roads.shp" "Roads").name = "Map1"
    ∧ { sampleEnv.dataLayer "roads.shp" with name := "Roads" }
        ∈ (mapAtBranch sampleEnv "Map1" "roads.shp" "Roads").layers
    ∧ (∀ l ∈ (mapAtBranch sampleEnv "Map1" "roads.shp" "Roads").layers,
        l.isBasemapLayer = false)
    ∧ (symAtBranch sampleEnv "SimpleRenderer" "Viridis").renderer.rtype = "SimpleRenderer"
    ∧ (symAtBranch sampleEnv "SimpleRenderer" "Viridis").renderer.colorRamp = "Viridis" :=
  error_path_host_mutation sampleEnv "Map1" "roads.shp" "Roads" "SimpleRenderer" "TYPE"
    "Viridis" none "NaturalBreaks" 5 "Viridis" [] (by decide) (by decide) rfl rfl

/-- Successful runs of `create_single_map` always end at line 85: the
returned pair is the write-back of some symbology into the added layer of
the basemap-stripped map. -/
theorem create_single_map_ok_writeBack (env : HostEnv)
    (mn lp ln r vn cm : String) (label_map : Option (List (Int × String)))
    (cmeth : String) (bc : Int) (m : GISMap) (ly : Layer)
    (hs : create_single_map env mn lp ln r vn cm label_map cmeth bc = .ok (m, ly)) :
    ∃ sym4, writeBack (mapAtBranch env mn lp ln)
        { env.dataLayer lp with name := ln } sym4 = (m, ly) := by
  rw [create_single_map.eq_def] at hs
  rcases hcr : env.colorRamps cm with _ | ⟨ramp, rs⟩ <;> rw [hcr] at hs
  · simp at hs
  · simp only at hs
    split at hs
    · rcases happ : applyUniqueValues env vn label_map (symAtBranch env r ramp)
        with e | sym4 <;> rw [happ] at hs
      · simp at hs
      · simp only [Except.ok.injEq] at hs
        exact ⟨sym4, hs⟩
    · split at hs
      · simp only [Except.ok.injEq] at hs
        exact ⟨_, hs⟩
      · simp at hs

/-- Successful unique-value runs: the exact ramp, symbology and write-back. -/
theorem create_single_map_uv_ok (env : HostEnv)
    (mn lp ln vn cm : String) (label_map : Option (List (Int × String)))
    (cmeth : String) (bc : Int) (m : GISMap) (ly : Layer)
    (hs : create_single_map env mn lp ln "UniqueValueRenderer" vn cm label_map cmeth bc
      = .ok (m, ly)) :
    ∃ ramp rs sym4,
      env.colorRamps cm = ramp :: rs ∧
      applyUniqueValues env vn label_map (symAtBranch env "UniqueValueRenderer" ramp)
        = .ok sym4 ∧
      m = (writeBack (mapAtBranch env mn lp ln) { env.dataLayer lp with name := ln } sym4).1 ∧
      ly = (writeBack (mapAtBranch env mn lp ln) { env.dataLayer lp with name := ln } sym4).2 := by
  rw [create_single_map.eq_def] at hs
  rcases hcr : env.colorRamps cm with _ | ⟨ramp, rs⟩ <;> rw [hcr] at hs
  · simp at hs
  · simp only at hs
    rw [if_pos trivial] at hs
    rcases happ : applyUniqueValues env vn label_map
        (symAtBranch env "UniqueValueRenderer" ramp) with e | sym4 <;> rw [happ] at hs
    · simp at hs
    · simp only [Except.ok.injEq] at hs
      refine ⟨ramp, rs, sym4, rfl, happ, ?_, ?_⟩
      · rw [hs]
      · rw [hs]

theorem writeBack_snd_symbology (m : GISMap) (l1 : Layer) (s : Symbology) :
    (writeBack m l1 s).2.symbology = s := rfl

theorem writeBack_no_basemap (m : GISMap) (l1 : Layer) (s : Symbology)
    (hm : ∀ l ∈ m.layers, l.isBasemapLayer = false) :
    ∀ l ∈ (writeBack m l1 s).1.layers, l.isBasemapLayer = false := by
  intro l hl
  simp only [writeBack, List.mem_map] at hl
  obtain ⟨a, ha, rfl⟩ := hl
  by_cases hc : a = l1
  · subst hc
    simp only [if_pos rfl]
    exact hm a ha
  · rw [if_neg hc]
    exact hm a ha

/-- C5: after a successful `create_single_map` call, the returned map
contains no basemap layers — every basemap layer present when the map was
created has been removed. -/
theorem returned_map_has_no_basemap_layers (env : HostEnv)
    (mn lp ln r vn cm : String) (label_map : Option (List (Int × String)))
    (cmeth : String) (bc : Int) (m : GISMap) (ly : Layer)
    (hs : create_single_map env mn lp ln r vn cm label_map cmeth bc = .ok (m, ly)) :
    ∀ l ∈ m.layers, l.isBasemapLayer = false := by
  obtain ⟨sym4, hw⟩ := create_single_map_ok_writeBack env mn lp ln r vn cm label_map
    cmeth bc m ly hs
  intro l hl
  have hm : (writeBack (mapAtBranch env mn lp ln)
      { env.dataLayer lp with name := ln } sym4).1 = m := congrArg Prod.fst hw
  rw [← hm] at hl
  exact writeBack_no_basemap _ _ _ (mapAtBranch_no_basemap env mn lp ln) l hl

/-- Witness for C5: the concrete run over `sampleEnv` (whose fresh maps
carry one basemap layer) returns `sampleUVMap`, whose sole layer — the
styled data layer — is not a basemap layer. -/
theorem returned_map_has_no_basemap_layers_witness :
    sampleUVLayer.isBasemapLayer = false :=
  returned_map_has_no_basemap_layers sampleEnv "Map1" "tracts.shp" "Tracts"
    "UniqueValueRenderer" "VALUE" "Viridis" (some sampleLabelMap) "NaturalBreaks" 5
    sampleUVMap sampleUVLayer (by rfl) sampleUVLayer (by simp [sampleUVMap])

/-- C2: for unique-value symbology, every item of the returned renderer's
group carries the label the caller-supplied mapping assigns to its value
when present, and the decimal string of that value otherwise. -/
theorem unique_value_labels_from_mapping (env : HostEnv)
    (mn lp ln vn cm : String) (lm : List (Int × String))
    (cmeth : String) (bc : Int) (m : GISMap) (ly : Layer) (g0 : UVGroup)
    (hs : create_single_map env mn lp ln "UniqueValueRenderer" vn cm (some lm) cmeth bc
      = .ok (m, ly))
    (hg : ly.symbology.renderer.groups.head? = some g0) :
    ∀ it ∈ g0.items,
      it.label = ((lm.lookup (itemKey it)).getD (toString (itemKey it))) := by
  obtain ⟨ramp, rs, sym4, hcr, happ, hm, hly⟩ := create_single_map_uv_ok env mn lp ln vn cm
    (some lm) cmeth bc m ly hs
  obtain ⟨g0', rest, hgr, hk, hsym⟩ := applyUniqueValues_ok_some env vn lm _ sym4 happ
  have hsymly : ly.symbology = sym4 := by rw [hly]; rfl
  rw [hsymly, hsym] at hg
  simp only [List.head?_cons, Option.some.injEq] at hg
  intro it hit
  rw [← hg] at hit
  simp only [List.mem_map] at hit
  obtain ⟨it', hit', hrel⟩ := hit
  subst hrel
  rfl

/-- Witness for C2 at the concrete `sampleEnv` run, at two concrete items
of the returned group: value 1 is labelled from the mapping, value 3 by
decimal-string fallback. -/
theorem unique_value_labels_from_mapping_witness :
    ({ values := [[1]], label := "one" } : UVItem).label
      = ((sampleLabelMap.lookup (itemKey ({ values := [[1]], label := "one" } : UVItem))).getD
          (toString (itemKey ({ values := [[1]], label := "one" } : UVItem))))
    ∧ ({ values := [[3]], label := "3" } : UVItem).label
      = ((sampleLabelMap.lookup (itemKey ({ values := [[3]], label := "3" } : UVItem))).getD
          (toString (itemKey ({ values := [[3]], label := "3" } : UVItem)))) :=
  ⟨unique_value_labels_from_mapping sampleEnv "Map1" "tracts.shp" "Tracts" "VALUE" "Viridis"
    sampleLabelMap "NaturalBreaks" 5 sampleUVMap sampleUVLayer
    { heading := "VALUE"
      items := [{ values := [[1]], label := "one" },
                { values := [[2]], label := "two" },
                { values := [[3]], label := "3" }] }
    (by rfl) rfl { values := [[1]], label := "one" } (by simp),
   unique_value_labels_from_mapping sampleEnv "Map1" "tracts.shp" "Tracts" "VALUE" "Viridis"
    sampleLabelMap "NaturalBreaks" 5 sampleUVMap sampleUVLayer
    { heading := "VALUE"
      items := [{ values := [[1]], label := "one" },
                { values := [[2]], label := "two" },
                { values := [[3]], label := "3" }] }
    (by rfl) rfl { values := [[3]], label := "3" } (by simp)⟩

/-- C10: for unique-value symbology, only the first group of the renderer
is touched — every group after the first is returned exactly as the host
computed it. -/
theorem groups_after_first_unchanged (env : HostEnv)
    (mn lp ln vn cm : String) (label_map : Option (List (Int × String)))
    (cmeth : String) (bc : Int) (m : GISMap) (ly : Layer)
    (hs : create_single_map env mn lp ln "UniqueValueRenderer" vn cm label_map cmeth bc
      = .ok (m, ly)) :
    ly.symbology.renderer.groups.drop 1 = (env.groupsFor [vn]).drop 1 := by
  obtain ⟨ramp, rs, sym4, hcr, happ, hm, hly⟩ := create_single_map_uv_ok env mn lp ln vn cm
    label_map cmeth bc m ly hs
  have hsymly : ly.symbology = sym4 := by rw [hly]; rfl
  rw [hsymly]
  exact applyUniqueValues_ok_tail env vn label_map _ sym4 happ

/-- Witness for C10 at the two-group environment: the second group comes
back verbatim. -/
theorem groups_after_first_unchanged_witness :
    twoGroupLayer.symbology.renderer.groups.drop 1
      = (twoGroupEnv.groupsFor ["VALUE"]).drop 1 :=
  groups_after_first_unchanged twoGroupEnv "Map1" "tracts.shp" "Tracts" "VALUE" "Viridis"
    (some sampleLabelMap) "NaturalBreaks" 5 twoGroupMap twoGroupLayer (by rfl)

/-- C3 counterexample: the claim extends the sort-and-relabel treatment to
the renderer's categorical groups, but with two groups the run below
returns the second group verbatim — unsorted (keys 2 then 1) and with its
stale labels — not sorted and relabelled. -/
theorem sorts_all_groups_counterexample :
    (create_single_map twoGroupEnv "Map1" "tracts.shp" "Tracts" "UniqueValueRenderer" "VALUE"
        "Viridis" (some sampleLabelMap) "NaturalBreaks" 5 = .ok (twoGroupMap, twoGroupLayer))
    ∧ twoGroupLayer.symbology.renderer.groups.getD 1 { heading := "", items := [] }
        = { heading := "g2"
            items := [{ values := [[2]], label := "b" }, { values := [[1]], label := "a" }] }
    ∧ ¬ ([{ values := [[2]], label := "b" },
          { values := [[1]], label := "a" }] : List UVItem).Pairwise
          (fun a b => itemKey a ≤ itemKey b)
    ∧ ([{ values := [[2]], label := "b" }, { values := [[1]], label := "a" }] : List UVItem)
        ≠ (sortItems [{ values := [[2]], label := "b" }, { values := [[1]], label := "a" }]).map
            (relabel sampleLabelMap) :=
  ⟨by rfl, rfl, by decide, by decide⟩

/-- C3 (amended): when the renderer is `UniqueValueRenderer`,
`create_single_map` sorts the items of the renderer's FIRST categorical
group, ascending by each item's first value, and relabels them using the
caller-supplied mapping with decimal-string fallback; the remaining groups
are carried over unchanged. -/
theorem first_group_sorted_and_relabelled (env : HostEnv)
    (mn lp ln vn cm : String) (lm : List (Int × String))
    (cmeth : String) (bc : Int) (m : GISMap) (ly : Layer)
    (hs : create_single_map env mn lp ln "UniqueValueRenderer" vn cm (some lm) cmeth bc
      = .ok (m, ly)) :
    ∃ g0 rest,
      env.groupsFor [vn] = g0 :: rest ∧
      ly.symbology.renderer.groups
        = { g0 with items := (sortItems g0.items).map (relabel lm) } :: rest ∧
      ((sortItems g0.items).map (relabel lm)).Pairwise
        (fun a b => itemKey a ≤ itemKey b) ∧
      ((sortItems g0.items).map (relabel lm)).Perm (g0.items.map (relabel lm)) ∧
      (∀ it ∈ (sortItems g0.items).map (relabel lm),
        it.label = ((lm.lookup (itemKey it)).getD (toString (itemKey it)))) := by
  obtain ⟨ramp, rs, sym4, hcr, happ, hm, hly⟩ := create_single_map_uv_ok env mn lp ln vn cm
    (some lm) cmeth bc m ly hs
  obtain ⟨g0, rest, hgr, hk, hsym⟩ := applyUniqueValues_ok_some env vn lm _ sym4 happ
  have hsymly : ly.symbology = sym4 := by rw [hly]; rfl
  refine ⟨g0, rest, hgr, ?_, ?_, ?_, ?_⟩
  · rw [hsymly, hsym]
  · exact List.pairwise_map.mpr (sortItems_pairwise g0.items)
  · exact (sortItems_perm g0.items).map (relabel lm)
  · intro it hit
    simp only [List.mem_map] at hit
    obtain ⟨it', hit', hrel⟩ := hit
    subst hrel
    rfl

/-- Witness for C3 (amended) at the two-group environment. -/
theorem first_group_sorted_and_relabelled_witness :
    ∃ g0 rest,
      twoGroupEnv.groupsFor ["VALUE"] = g0 :: rest ∧
      twoGroupLayer.symbology.renderer.groups
        = { g0 with items := (sortItems g0.items).map (relabel sampleLabelMap) } :: rest ∧
      ((sortItems g0.items).map (relabel sampleLabelMap)).Pairwise
        (fun a b => itemKey a ≤ itemKey b) ∧
      ((sortItems g0.items).map (relabel sampleLabelMap)).Perm
        (g0.items.map (relabel sampleLabelMap)) ∧
      (∀ it ∈ (sortItems g0.items).map (relabel sampleLabelMap),
        it.label = ((sampleLabelMap.lookup (itemKey it)).getD (toString (itemKey it)))) :=
  first_group_sorted_and_relabelled twoGroupEnv "Map1" "tracts.shp" "Tracts" "VALUE"
    "Viridis" sampleLabelMap "NaturalBreaks" 5 twoGroupMap twoGroupLayer (by rfl)

/-- Successful runs of `create_standard_layout` carry the written-back CIM
definitions: the layout CIM with borders stripped from `CIMMapFrame`
elements, and the legend CIM with every item suppressed. -/
theorem create_standard_layout_ok_shape (env : HostEnv) (mo : GISMap) (lyr : Layer)
    (nm tt : String) (mfe : Option Extent) (tp lpos lsz sbp nap : Rat × Rat) (lay : Layout)
    (hs : create_standard_layout env mo lyr nm tt mfe tp lpos lsz sbp nap = .ok lay) :
    lay.cim = { elements := env.lytCIM.elements.map stripBorder } ∧
    lay.legend.cim = { items := env.legendCIM.items.map suppressItem } := by
  rw [create_standard_layout.eq_def] at hs
  simp only at hs
  rcases h1 : env.styleItems "ArcGIS 2D" "TEXT" "Title (Serif)" with _ | ⟨s1, r1⟩ <;>
    rw [h1] at hs
  · simp at hs
  · simp only at hs
    rcases h2 : env.styleItems "ArcGIS 2D" "LEGEND" "Legend 1" with _ | ⟨s2, r2⟩ <;>
      rw [h2] at hs
    · simp at hs
    · simp only at hs
      rcases h3 : env.styleItems "ArcGIS 2D" "SCALE_BAR" "Scale Line 1 Metric"
          with _ | ⟨s3, r3⟩ <;> rw [h3] at hs
      · simp at hs
      · simp only at hs
        rcases h4 : env.styleItems "ArcGIS 2D" "NORTH_ARROW" "ArcGIS North 1"
            with _ | ⟨s4, r4⟩ <;> rw [h4] at hs
        · simp at hs
        · simp only [Except.ok.injEq] at hs
          subst hs
          exact ⟨rfl, rfl⟩

/-- C6: after a successful `create_standard_layout` call, the layout's CIM
definition is the original one with every `CIMMapFrame` element's
graphic-frame border symbol set to `None` (and only those elements
touched), so no `CIMMapFrame` element retains a border symbol. -/
theorem map_frame_border_stripped (env : HostEnv) (mo : GISMap) (lyr : Layer)
    (nm tt : String) (mfe : Option Extent) (tp lpos lsz sbp nap : Rat × Rat) (lay : Layout)
    (hs : create_standard_layout env mo lyr nm tt mfe tp lpos lsz sbp nap = .ok lay) :
    lay.cim.elements = env.lytCIM.elements.map stripBorder
    ∧ ∀ e ∈ lay.cim.elements, e.typeName = "CIMMapFrame" →
        e.graphicFrame.borderSymbol = none := by
  have h := (create_standard_layout_ok_shape env mo lyr nm tt mfe tp lpos lsz sbp nap lay hs).1
  have he : lay.cim.elements = env.lytCIM.elements.map stripBorder := by rw [h]
  refine ⟨he, ?_⟩
  intro e hei hty
  rw [he] at hei
  simp only [List.mem_map] at hei
  obtain ⟨a, ha, rfl⟩ := hei
  by_cases hc : a.typeName = "CIMMapFrame"
  · simp [stripBorder, hc]
  · simp only [stripBorder, if_neg hc] at hty
    exact absurd hty hc

/-- Witness for C6 at the concrete `sampleEnv` layout run: the
`CIMMapFrame` element's border is gone, the other element untouched. -/
theorem map_frame_border_stripped_witness :
    sampleLayout.cim.elements = sampleEnv.lytCIM.elements.map stripBorder
    ∧ ∀ e ∈ sampleLayout.cim.elements, e.typeName = "CIMMapFrame" →
        e.graphicFrame.borderSymbol = none :=
  map_frame_border_stripped sampleEnv sampleUVMap sampleUVLayer "Layout1"
    "Population by Tract" none (4.1215, 5.539) (0.1464, 2.2927) (1.2357, 1.7131)
    (2.7713, 0.2371) (7.2704, 4.8844) sampleLayout (by rfl)

/-- C7: in the legend created by `create_standard_layout`, the legend's
written-back CIM definition is the original one with every item's
layer-name display and heading display suppressed, so every item shows
neither layer name nor heading. -/
theorem legend_items_suppressed (env : HostEnv) (mo : GISMap) (lyr : Layer)
    (nm tt : String) (mfe : Option Extent) (tp lpos lsz sbp nap : Rat × Rat) (lay : Layout)
    (hs : create_standard_layout env mo lyr nm tt mfe tp lpos lsz sbp nap = .ok lay) :
    lay.legend.cim.items = env.legendCIM.items.map suppressItem
    ∧ ∀ it ∈ lay.legend.cim.items, it.showLayerName = false ∧ it.showHeading = false := by
  have h := (create_standard_layout_ok_shape env mo lyr nm tt mfe tp lpos lsz sbp nap lay hs).2
  have he : lay.legend.cim.items = env.legendCIM.items.map suppressItem := by rw [h]
  refine ⟨he, ?_⟩
  intro it hit
  rw [he] at hit
  simp only [List.mem_map] at hit
  obtain ⟨a, ha, hrel⟩ := hit
  subst hrel
  exact ⟨rfl, rfl⟩

/-- Witness for C7 at the concrete `sampleEnv` layout run: both legend
items come back with layer name and heading suppressed. -/
theorem legend_items_suppressed_witness :
    sampleLayout.legend.cim.items = sampleEnv.legendCIM.items.map suppressItem
    ∧ ∀ it ∈ sampleLayout.legend.cim.items,
        it.showLayerName = false ∧ it.showHeading = false :=
  legend_items_suppressed sampleEnv sampleUVMap sampleUVLayer "Layout1"
    "Population by Tract" none (4.1215, 5.539) (0.1464, 2.2927) (1.2357, 1.7131)
    (2.7713, 0.2371) (7.2704, 4.8844) sampleLayout (by rfl)
